import Mathlib

/-!
Verification of the OpenClaw Mobile local credential / at-rest encryption
subsystem against its specification.

Embedded source:
* the crypto utility (`encryptAESGCM`, `decryptAESGCM`, `encryptValue`,
  `decryptValue` and their hex/byte helpers), and
* the auth store (lockout-enabled variant in `src/store/brain.ts`:
  `setupPassphrase`, `verifyPassphrase`, `isLockedOut`,
  `getRemainingLockoutTime`, `unlockWithBiometric`, `lock`,
  `updateActivity`, `checkAutoLock`, store initialisation).

Modelling conventions:
* Bytes are `Nat` values; `Uint8Array` cells coerce stores modulo 256,
  which is written explicitly where the source stores into a typed array.
* Strings stay Lean `String`s.  `TextEncoder`/`TextDecoder` (platform
  collaborators) are modelled by working directly with the UTF-8 byte
  sequence of a plaintext, so plaintexts are byte lists whose entries are
  below 256.
* `Crypto.digestStringAsync(SHA256, ·)` is an external collaborator; it is
  modelled as an explicit function parameter `H : String → String`.  All
  theorems quantify over `H`, so they hold for the real digest; properties
  that need "the digest does not collide on these two inputs" carry that
  as an explicit hypothesis.
* `JSON.stringify`/`JSON.parse` of the fixed `EncryptedData` shape are
  modelled structurally (the record itself stands for its serialisation).
* `Date.now()`, random salts and IVs, and biometric prompt outcomes are
  passed in as parameters, one value per call, exactly where the source
  consults them.
-/

set_option maxRecDepth 200000

namespace OpenClaw

/-! ## Hex / byte utilities (crypto utility source file) -/

/-- Lowercase hex digit for a value below 16, as produced by
`Number.toString(16)`. -/
def hexChar (n : Nat) : Char :=
  if n < 10 then Char.ofNat (48 + n) else Char.ofNat (87 + n)

/-- Value of one hex digit character as `parseInt` sees it
(`0-9`, `a-f`, `A-F`); `none` for a non-digit. -/
def hexDigitVal (c : Char) : Option Nat :=
  if 48 ≤ c.toNat ∧ c.toNat ≤ 57 then some (c.toNat - 48)
  else if 97 ≤ c.toNat ∧ c.toNat ≤ 102 then some (c.toNat - 87)
  else if 65 ≤ c.toNat ∧ c.toNat ≤ 70 then some (c.toNat - 55)
  else none

/-- Value of `parseInt(<two chars>, 16)` as stored into a `Uint8Array` cell:
a full two-digit parse, a one-digit prefix parse, or `NaN` (stored as 0). -/
def hexPairVal (c1 c2 : Char) : Nat :=
  match hexDigitVal c1, hexDigitVal c2 with
  | some v1, some v2 => 16 * v1 + v2
  | some v1, none => v1
  | none, _ => 0

/-- Rendering `b.toString(16).padStart(2, '0')` of a `Uint8Array` cell (`b < 256`). -/
def byteToHexChars (b : Nat) : List Char :=
  [hexChar (b / 16), hexChar (b % 16)]

/-- Function `bytesToHex` from the crypto utility: each byte becomes two lowercase
hex characters. -/
def bytesToHex (bs : List Nat) : String :=
  ⟨bs.flatMap byteToHexChars⟩

/-- Character-pair loop of `hexToBytes` (`i += 2`; a trailing odd
character is never produced by `bytesToHex` and is dropped). -/
def hexPairsToBytes : List Char → List Nat
  | c1 :: c2 :: rest => hexPairVal c1 c2 :: hexPairsToBytes rest
  | _ => []

/-- Function `hexToBytes` from the crypto utility. -/
def hexToBytes (s : String) : List Nat :=
  hexPairsToBytes s.data

/-- One cell of the XOR loop shared by `encryptAESGCM` and
`decryptAESGCM`: `input[i] ^ keyBytes[i % keyBytes.length]
^ ivBytes[i % ivBytes.length]`, stored into a `Uint8Array`
(hence the explicit `% 256`; an out-of-range JS index reads
`undefined`, which the XOR coerces to 0 — `List.getD` with default 0). -/
def xorByte (key iv : List Nat) (i b : Nat) : Nat :=
  ((b ^^^ key.getD (i % key.length) 0) ^^^ iv.getD (i % iv.length) 0) % 256

/-- The full XOR loop over an input byte array. -/
def xorCipher (input key iv : List Nat) : List Nat :=
  (List.range input.length).map fun i => xorByte key iv i (input.getD i 0)

/-- Result object of `encryptAESGCM`: `{ iv, ciphertext, tag }`, all hex. -/
structure Envelope where
  iv : String
  ciphertext : String
  tag : String
deriving Repr, DecidableEq

/-- The tag computation both sides perform:
`SHA256(ciphertextHex + key).substring(0, 32)`. -/
def computeTag (H : String → String) (ciphertext key : String) : String :=
  (H (ciphertext ++ key)).take 32

/-- Embedding of `encryptAESGCM(plaintext, key)` with the freshly generated IV (a hex
string from `generateIV`) passed in explicitly.  The plaintext is its
UTF-8 byte sequence. -/
def encryptAESGCM (H : String → String) (iv : String) (plaintext : List Nat)
    (key : String) : Envelope :=
  let ciphertextBytes := xorCipher plaintext (hexToBytes key) (hexToBytes iv)
  { iv := iv
    ciphertext := bytesToHex ciphertextBytes
    tag := computeTag H (bytesToHex ciphertextBytes) key }

/-- Embedding of `decryptAESGCM(ciphertext, key, iv, tag)`: verify the tag first and
return `null` (`none`) on mismatch, else reverse the XOR.  The decoded
plaintext is returned as its UTF-8 byte sequence. -/
def decryptAESGCM (H : String → String) (ciphertext key iv tag : String) :
    Option (List Nat) :=
  if computeTag H ciphertext key ≠ tag then none
  else some (xorCipher (hexToBytes ciphertext) (hexToBytes key) (hexToBytes iv))

/-- The `EncryptedData` shape serialised by `encryptValue`
(`{ v: 1, iv, ct, tag }`). -/
structure EncryptedData where
  v : Nat
  iv : String
  ct : String
  tag : String
deriving Repr, DecidableEq

/-- Embedding of `encryptValue(value, encryptionKey)`; the JSON serialisation of the
result record is modelled structurally. -/
def encryptValue (H : String → String) (iv : String) (value : List Nat)
    (encryptionKey : String) : EncryptedData :=
  let e := encryptAESGCM H iv value encryptionKey
  { v := 1, iv := e.iv, ct := e.ciphertext, tag := e.tag }

/-- Embedding of `decryptValue(encrypted, encryptionKey)`: reject versions other than 1
(the thrown error is caught and becomes `null`), else decrypt. -/
def decryptValue (H : String → String) (data : EncryptedData)
    (encryptionKey : String) : Option (List Nat) :=
  if data.v ≠ 1 then none
  else decryptAESGCM H data.ct encryptionKey data.iv data.tag

/-- A single-bit flip inside a byte array: byte `i`, bit `b`. -/
def flipBit (bs : List Nat) (i b : Nat) : List Nat :=
  bs.set i (bs.getD i 0 ^^^ 2 ^ b)

/-! ## Basic lemmas about the hex/byte layer -/

theorem hexDigitVal_hexChar : ∀ n < 16, hexDigitVal (hexChar n) = some n := by
  decide

theorem hexDigitVal_lt (c : Char) (v : Nat) (h : hexDigitVal c = some v) :
    v < 16 := by
  unfold hexDigitVal at h
  split at h
  · next hc => simp only [Option.some.injEq] at h; omega
  · split at h
    · next hc => simp only [Option.some.injEq] at h; omega
    · split at h
      · next hc => simp only [Option.some.injEq] at h; omega
      · exact absurd h (by simp)

theorem hexPairVal_lt (c1 c2 : Char) : hexPairVal c1 c2 < 256 := by
  unfold hexPairVal
  split
  · next v1 v2 h1 h2 =>
      have := hexDigitVal_lt c1 v1 h1
      have := hexDigitVal_lt c2 v2 h2
      omega
  · next v1 h1 h2 =>
      have := hexDigitVal_lt c1 v1 h1
      omega
  · omega

theorem hexPairsToBytes_lt : ∀ l : List Char, ∀ b ∈ hexPairsToBytes l, b < 256
  | c1 :: c2 :: rest => by
      intro b hb
      simp only [hexPairsToBytes, List.mem_cons] at hb
      rcases hb with h | h
      · exact h ▸ hexPairVal_lt c1 c2
      · exact hexPairsToBytes_lt rest b h
  | [] => by intro b hb; simp [hexPairsToBytes] at hb
  | [c] => by intro b hb; simp [hexPairsToBytes] at hb

theorem hexToBytes_lt (s : String) : ∀ b ∈ hexToBytes s, b < 256 :=
  hexPairsToBytes_lt s.data

theorem hexToBytes_bytesToHex (bs : List Nat) (h : ∀ b ∈ bs, b < 256) :
    hexToBytes (bytesToHex bs) = bs := by
  induction bs with
  | nil => rfl
  | cons b rest ih =>
      have hb : b < 256 := h b (List.mem_cons_self b rest)
      have hrest : ∀ x ∈ rest, x < 256 := fun x hx => h x (List.mem_cons_of_mem b hx)
      have h1 : hexDigitVal (hexChar (b / 16)) = some (b / 16) :=
        hexDigitVal_hexChar _ (Nat.div_lt_of_lt_mul (by omega))
      have h2 : hexDigitVal (hexChar (b % 16)) = some (b % 16) :=
        hexDigitVal_hexChar _ (Nat.mod_lt _ (by omega))
      simp only [hexToBytes, bytesToHex, List.flatMap_cons, byteToHexChars,
        List.cons_append, List.nil_append] at *
      simp only [hexPairsToBytes, hexPairVal, h1, h2]
      rw [show 16 * (b / 16) + b % 16 = b from by omega]
      exact congrArg (b :: ·) (ih hrest)

theorem xorCipher_length (input key iv : List Nat) :
    (xorCipher input key iv).length = input.length := by
  simp [xorCipher]

theorem getD_lt_256 (l : List Nat) (hl : ∀ b ∈ l, b < 256) (i : Nat) :
    l.getD i 0 < 256 := by
  rcases Nat.lt_or_ge i l.length with h | h
  · rw [List.getD_eq_getElem l 0 h]
    exact hl _ (l.getElem_mem h)
  · rw [List.getD_eq_default l 0 h]
    omega

theorem xorByte_lt (key iv : List Nat) (i b : Nat) :
    xorByte key iv i b < 256 := by
  exact Nat.mod_lt _ (by omega)

theorem xorCipher_getD (input key iv : List Nat) (i : Nat)
    (h : i < input.length) :
    (xorCipher input key iv).getD i 0 = xorByte key iv i (input.getD i 0) := by
  unfold xorCipher
  rw [List.getD_eq_getElem _ 0 (by simpa using h)]
  simp

/-- XOR with the same key and IV streams is an involution on bytes. -/
theorem xorByte_involution (key iv : List Nat) (i b : Nat) (hb : b < 256)
    (hkey : ∀ x ∈ key, x < 256) (hiv : ∀ x ∈ iv, x < 256) :
    xorByte key iv i (xorByte key iv i b) = b := by
  have hk : key.getD (i % key.length) 0 < 256 := getD_lt_256 key hkey _
  have hv : iv.getD (i % iv.length) 0 < 256 := getD_lt_256 iv hiv _
  have swap : ∀ w x y : Nat, (w ^^^ y) ^^^ x = (w ^^^ x) ^^^ y := by
    intro w x y
    rw [Nat.xor_assoc, Nat.xor_comm y x, ← Nat.xor_assoc]
  unfold xorByte
  set k := key.getD (i % key.length) 0 with hkdef
  set v := iv.getD (i % iv.length) 0 with hvdef
  have h1 : b ^^^ k < 256 := by
    have h256 : (256 : Nat) = 2 ^ 8 := by norm_num
    rw [h256] at hb hk ⊢
    exact Nat.xor_lt_two_pow hb hk
  have h2 : (b ^^^ k) ^^^ v < 256 := by
    have h256 : (256 : Nat) = 2 ^ 8 := by norm_num
    rw [h256] at h1 hv ⊢
    exact Nat.xor_lt_two_pow h1 hv
  rw [Nat.mod_eq_of_lt h2, ← swap ((b ^^^ k) ^^^ v) k v,
    Nat.xor_cancel_right, Nat.xor_cancel_right, Nat.mod_eq_of_lt hb]

theorem xorCipher_involution (input key iv : List Nat)
    (h : ∀ b ∈ input, b < 256)
    (hkey : ∀ x ∈ key, x < 256) (hiv : ∀ x ∈ iv, x < 256) :
    xorCipher (xorCipher input key iv) key iv = input := by
  apply List.ext_getElem
  · simp [xorCipher_length]
  · intro i h1 h2
    have hi : i < input.length := h2
    rw [← List.getD_eq_getElem (xorCipher (xorCipher input key iv) key iv) 0 h1,
      ← List.getD_eq_getElem input 0 h2,
      xorCipher_getD _ key iv i (by simpa [xorCipher_length] using hi),
      xorCipher_getD input key iv i hi]
    exact xorByte_involution key iv i _ (getD_lt_256 input h i) hkey hiv

theorem xorCipher_lt (input key iv : List Nat) :
    ∀ x ∈ xorCipher input key iv, x < 256 := by
  intro x hx
  simp only [xorCipher, List.mem_map, List.mem_range] at hx
  obtain ⟨i, _, hi⟩ := hx
  exact hi ▸ xorByte_lt key iv i _

/-- Effect of decrypting a ciphertext that was XOR-encrypted under `ivB`
using a different IV stream `iv2B`, at a position `j` covered by both IVs:
the key stream cancels and the two IV bytes remain. -/
theorem xorCipher_twice_getD (m key ivB iv2B : List Nat) (j : Nat)
    (hj : j < m.length) (hjiv : j < ivB.length) (hlen : iv2B.length = ivB.length)
    (hm : m.getD j 0 < 256) (hk : ∀ x ∈ key, x < 256)
    (hiv : ∀ x ∈ ivB, x < 256) (hiv2 : ∀ x ∈ iv2B, x < 256) :
    (xorCipher (xorCipher m key ivB) key iv2B).getD j 0
      = (m.getD j 0 ^^^ ivB.getD j 0) ^^^ iv2B.getD j 0 := by
  have swap : ∀ w x y : Nat, (w ^^^ y) ^^^ x = (w ^^^ x) ^^^ y := by
    intro w x y
    rw [Nat.xor_assoc, Nat.xor_comm y x, ← Nat.xor_assoc]
  have hjc : j < (xorCipher m key ivB).length := by
    simpa [xorCipher_length] using hj
  rw [xorCipher_getD _ key iv2B j hjc, xorCipher_getD m key ivB j hj]
  have hmodiv : j % ivB.length = j := Nat.mod_eq_of_lt hjiv
  have hmodiv2 : j % iv2B.length = j := Nat.mod_eq_of_lt (hlen ▸ hjiv)
  unfold xorByte
  rw [hmodiv, hmodiv2]
  set mj := m.getD j 0
  set kj := key.getD (j % key.length) 0
  set vj := ivB.getD j 0
  set v2j := iv2B.getD j 0
  have hkb : kj < 256 := getD_lt_256 key hk _
  have hvb : vj < 256 := getD_lt_256 ivB hiv _
  have hv2b : v2j < 256 := getD_lt_256 iv2B hiv2 _
  have h256 : (256 : Nat) = 2 ^ 8 := by norm_num
  have h1 : mj ^^^ kj < 256 := by
    rw [h256] at hm hkb ⊢
    exact Nat.xor_lt_two_pow hm hkb
  have h2 : (mj ^^^ kj) ^^^ vj < 256 := by
    rw [h256] at h1 hvb ⊢
    exact Nat.xor_lt_two_pow h1 hvb
  have h3 : ((mj ^^^ kj) ^^^ vj) ^^^ kj < 256 := by
    rw [h256] at h2 hkb ⊢
    exact Nat.xor_lt_two_pow h2 hkb
  have h4 : (((mj ^^^ kj) ^^^ vj) ^^^ kj) ^^^ v2j < 256 := by
    rw [h256] at h3 hv2b ⊢
    exact Nat.xor_lt_two_pow h3 hv2b
  rw [Nat.mod_eq_of_lt h2, Nat.mod_eq_of_lt h4, swap mj vj kj,
    Nat.xor_cancel_right]

/-! ## Claim theorems about the envelope cipher -/

theorem encryptAESGCM_iv (H : String → String) (iv : String) (m : List Nat)
    (key : String) : (encryptAESGCM H iv m key).iv = iv := by
  simp [encryptAESGCM]

theorem encryptAESGCM_ciphertext (H : String → String) (iv : String)
    (m : List Nat) (key : String) :
    (encryptAESGCM H iv m key).ciphertext
      = bytesToHex (xorCipher m (hexToBytes key) (hexToBytes iv)) := by
  simp [encryptAESGCM]

theorem encryptAESGCM_tag (H : String → String) (iv : String) (m : List Nat)
    (key : String) :
    (encryptAESGCM H iv m key).tag
      = computeTag H (encryptAESGCM H iv m key).ciphertext key := by
  simp [encryptAESGCM]

theorem encryptValue_v (H : String → String) (iv : String) (m : List Nat)
    (key : String) : (encryptValue H iv m key).v = 1 := by
  simp [encryptValue]

theorem encryptValue_iv (H : String → String) (iv : String) (m : List Nat)
    (key : String) :
    (encryptValue H iv m key).iv = (encryptAESGCM H iv m key).iv := by
  simp [encryptValue]

theorem encryptValue_ct (H : String → String) (iv : String) (m : List Nat)
    (key : String) :
    (encryptValue H iv m key).ct = (encryptAESGCM H iv m key).ciphertext := by
  simp [encryptValue]

theorem encryptValue_tag (H : String → String) (iv : String) (m : List Nat)
    (key : String) :
    (encryptValue H iv m key).tag = (encryptAESGCM H iv m key).tag := by
  simp [encryptValue]

/-- Running `decryptValue` on the output of `encryptValue` (any second key)
reduces to `decryptAESGCM` on the inner envelope: the version check
passes. -/
theorem decryptValue_encryptValue (H : String → String) (iv : String)
    (m : List Nat) (k1 k2 : String) :
    decryptValue H (encryptValue H iv m k1) k2
      = decryptAESGCM H (encryptAESGCM H iv m k1).ciphertext k2
          (encryptAESGCM H iv m k1).iv (encryptAESGCM H iv m k1).tag := by
  unfold decryptValue
  rw [encryptValue_v, encryptValue_ct, encryptValue_iv, encryptValue_tag,
    if_neg (by decide)]

/-- Core round trip at the `encryptAESGCM`/`decryptAESGCM` level. -/
theorem decryptAESGCM_encryptAESGCM (H : String → String) (iv key : String)
    (m : List Nat) (hm : ∀ b ∈ m, b < 256) :
    decryptAESGCM H (encryptAESGCM H iv m key).ciphertext key
      (encryptAESGCM H iv m key).iv (encryptAESGCM H iv m key).tag = some m := by
  rw [encryptAESGCM_tag, encryptAESGCM_iv]
  unfold decryptAESGCM
  rw [if_neg fun hne => hne rfl]
  rw [encryptAESGCM_ciphertext]
  rw [hexToBytes_bytesToHex _ (xorCipher_lt m (hexToBytes key) (hexToBytes iv))]
  rw [xorCipher_involution m (hexToBytes key) (hexToBytes iv) hm
    (hexToBytes_lt key) (hexToBytes_lt iv)]

/-- C4: for every plaintext (as its UTF-8 bytes) and every key, decrypting
the serialised envelope produced by `encryptValue` with the same key
returns the plaintext: `decrypt(encrypt(m, k), k) = m`. -/
theorem encrypt_decrypt_roundtrip (H : String → String) (iv key : String)
    (m : List Nat) (hm : ∀ b ∈ m, b < 256) :
    decryptValue H (encryptValue H iv m key) key = some m := by
  rw [decryptValue_encryptValue]
  exact decryptAESGCM_encryptAESGCM H iv key m hm

/-- Witness for C4 at a concrete plaintext, key and IV. -/
theorem encrypt_decrypt_roundtrip_witness :
    decryptValue (fun s => s)
      (encryptValue (fun s => s) "0102" [104, 105] "00ff") "00ff"
      = some [104, 105] :=
  encrypt_decrypt_roundtrip (fun s => s) "0102" "00ff" [104, 105] (by decide)

/-- C5: decrypting an envelope produced under `k1` with a different key
`k2` fails with `null` — provided the truncated digests of
`ciphertext + k2` and `ciphertext + k1` differ (the no-collision
property the external SHA-256 collaborator supplies). -/
theorem wrong_key_decrypt_fails (H : String → String) (iv k1 k2 : String)
    (m : List Nat) (hne : k1 ≠ k2)
    (hcoll : computeTag H (encryptAESGCM H iv m k1).ciphertext k2
      ≠ (encryptAESGCM H iv m k1).tag) :
    decryptValue H (encryptValue H iv m k1) k2 = none := by
  rw [decryptValue_encryptValue]
  unfold decryptAESGCM
  rw [if_pos hcoll]

/-- Witness for C5 at a concrete plaintext and key pair. -/
theorem wrong_key_decrypt_fails_witness :
    decryptValue (fun s => s) (encryptValue (fun s => s) "" [0] "00") "ff"
      = none :=
  wrong_key_decrypt_fails (fun s => s) "" "00" "ff" [0] (by decide) (by decide)

/-- C6: in a valid envelope produced by encryption, flipping any single
bit (byte `i`, bit `b`) of the ciphertext makes decryption fail, provided
the digest of the modified ciphertext differs from the stored tag (the
no-collision property of the SHA-256 collaborator); and any change to the
tag field (which every single-bit flip of it is) makes decryption fail
unconditionally.  In both cases the result is `null`: no plaintext is
exposed. -/
theorem tamper_detection (H : String → String) (iv key ctHex tagHex : String)
    (m : List Nat) (i b : Nat) (tg : String)
    (henc : encryptAESGCM H iv m key = ⟨iv, ctHex, tagHex⟩)
    (hi : i < (hexToBytes ctHex).length) (hb : b < 8)
    (hcoll : computeTag H (bytesToHex (flipBit (hexToBytes ctHex) i b)) key
      ≠ tagHex)
    (htg : tg ≠ tagHex) :
    decryptAESGCM H (bytesToHex (flipBit (hexToBytes ctHex) i b)) key iv tagHex
      = none
    ∧ decryptAESGCM H ctHex key iv tg = none := by
  have h1 : (encryptAESGCM H iv m key).ciphertext = ctHex := by rw [henc]
  have h3 : (encryptAESGCM H iv m key).tag = tagHex := by rw [henc]
  have h2 : computeTag H ctHex key = tagHex := by
    rw [← h1, ← encryptAESGCM_tag, h3]
  constructor
  · unfold decryptAESGCM
    rw [if_pos hcoll]
  · unfold decryptAESGCM
    rw [if_pos (show computeTag H ctHex key ≠ tg by
      rw [h2]; exact fun hh => htg hh.symm)]

/-- Witness for C6 at a concrete envelope. -/
theorem tamper_detection_witness :
    decryptAESGCM (fun s => s)
      (bytesToHex (flipBit (hexToBytes "00") 0 0)) "00" "" "0000" = none
    ∧ decryptAESGCM (fun s => s) "00" "00" "" "zz" = none :=
  tamper_detection (fun s => s) "" "00" "00" "0000" [0] 0 0 "zz"
    (by decide) (by decide) (by decide) (by decide) (by decide)

/-- C10: the tag does not cover the IV.  Replacing the `iv` field of a
valid envelope by any other IV of the same byte length gives the same
tag-check outcome for every candidate tag; in particular the tampered
envelope is accepted, and (when the IVs differ at a byte position that
the plaintext reaches) the decryption returns a plaintext different from
the original instead of failing. -/
theorem iv_not_authenticated (H : String → String) (iv iv2 key : String)
    (m : List Nat) (j : Nat) (tg : String)
    (hm : ∀ x ∈ m, x < 256)
    (hlen : (hexToBytes iv2).length = (hexToBytes iv).length)
    (hj : j < m.length) (hjiv : j < (hexToBytes iv).length)
    (hdiff : (hexToBytes iv2).getD j 0 ≠ (hexToBytes iv).getD j 0) :
    ((decryptAESGCM H (encryptAESGCM H iv m key).ciphertext key iv2 tg).isSome
      = (decryptAESGCM H (encryptAESGCM H iv m key).ciphertext key iv tg).isSome)
    ∧ (decryptAESGCM H (encryptAESGCM H iv m key).ciphertext key iv2
        (encryptAESGCM H iv m key).tag).isSome = true
    ∧ decryptAESGCM H (encryptAESGCM H iv m key).ciphertext key iv2
        (encryptAESGCM H iv m key).tag ≠ some m := by
  refine ⟨?_, ?_, ?_⟩
  · unfold decryptAESGCM
    split
    · rfl
    · rfl
  · rw [encryptAESGCM_tag]
    unfold decryptAESGCM
    rw [if_neg fun hne => hne rfl]
    rfl
  · rw [encryptAESGCM_tag]
    unfold decryptAESGCM
    rw [if_neg fun hne => hne rfl]
    intro hsome
    have hp := Option.some.inj hsome
    rw [encryptAESGCM_ciphertext, hexToBytes_bytesToHex _
      (xorCipher_lt m (hexToBytes key) (hexToBytes iv))] at hp
    have hgd := congrArg (fun l => l.getD j 0) hp
    simp only at hgd
    rw [xorCipher_twice_getD m (hexToBytes key) (hexToBytes iv) (hexToBytes iv2)
      j hj hjiv hlen (getD_lt_256 m hm j) (hexToBytes_lt key)
      (hexToBytes_lt iv) (hexToBytes_lt iv2)] at hgd
    apply hdiff
    rw [Nat.xor_assoc] at hgd
    have h0 : m.getD j 0 ^^^ ((hexToBytes iv).getD j 0 ^^^ (hexToBytes iv2).getD j 0)
        = m.getD j 0 ^^^ 0 := by rw [Nat.xor_zero]; exact hgd
    have h1 : (hexToBytes iv).getD j 0 ^^^ (hexToBytes iv2).getD j 0 = 0 :=
      Nat.xor_right_inj.mp h0
    exact (Nat.xor_eq_zero.mp h1).symm

/-- Witness for C10 at a concrete envelope and tampered IV. -/
theorem iv_not_authenticated_witness :
    ((decryptAESGCM (fun s => s)
        (encryptAESGCM (fun s => s) "0000" [1, 2] "").ciphertext "" "0001"
        "t").isSome
      = (decryptAESGCM (fun s => s)
          (encryptAESGCM (fun s => s) "0000" [1, 2] "").ciphertext "" "0000"
          "t").isSome)
    ∧ (decryptAESGCM (fun s => s)
        (encryptAESGCM (fun s => s) "0000" [1, 2] "").ciphertext "" "0001"
        (encryptAESGCM (fun s => s) "0000" [1, 2] "").tag).isSome = true
    ∧ decryptAESGCM (fun s => s)
        (encryptAESGCM (fun s => s) "0000" [1, 2] "").ciphertext "" "0001"
        (encryptAESGCM (fun s => s) "0000" [1, 2] "").tag ≠ some [1, 2] :=
  iv_not_authenticated (fun s => s) "0000" "0001" "" [1, 2] 1 "t"
    (by decide) (by decide) (by decide) (by decide) (by decide)

/-! ## Auth store (lockout-enabled variant in src/store/brain.ts) -/

/-- Auto-lock after 5 minutes of inactivity. -/
def AUTO_LOCK_MS : Nat := 5 * 60 * 1000

/-- Brute-force protection threshold. -/
def MAX_FAILED_ATTEMPTS : Nat := 5

/-- Lockout window length: 5 minutes. -/
def LOCKOUT_DURATION_MS : Nat := 5 * 60 * 1000

/-- Embedding of `hashPassphrase(passphrase, salt)`: one SHA-256 digest (the abstract
collaborator `H`) over the concatenation. -/
def hashPassphrase (H : String → String) (passphrase salt : String) : String :=
  H (passphrase ++ salt)

/-- Embedding of `deriveEncryptionKey(passphrase, salt)`: second digest over the first
hash with the "encryption" suffix. -/
def deriveEncryptionKey (H : String → String) (passphrase salt : String) :
    String :=
  H (hashPassphrase H passphrase salt ++ "encryption")

/-- The in-memory zustand auth state. -/
structure AuthState where
  isUnlocked : Bool
  isSetup : Bool
  biometricAvailable : Bool
  biometricEnabled : Bool
  lastActivity : Nat
  encryptionKey : Option String
  failedAttempts : Nat
  lockoutUntil : Option Nat
deriving Repr, DecidableEq

/-- State at store creation (`Date.now()` at module load passed in). -/
def initialAuthState (now : Nat) : AuthState :=
  { isUnlocked := false, isSetup := false, biometricAvailable := false
    biometricEnabled := false, lastActivity := now, encryptionKey := none
    failedAttempts := 0, lockoutUntil := none }

/-- Contents of the four expo-secure-store keys this subsystem uses. -/
structure SecureStore where
  passphraseHash : Option String
  passphraseSalt : Option String
  biometricEnabledFlag : Option String
  encryptionKey : Option String
deriving Repr, DecidableEq

/-- A fresh install: no key has ever been written. -/
def emptySecureStore : SecureStore :=
  { passphraseHash := none, passphraseSalt := none
    biometricEnabledFlag := none, encryptionKey := none }

/-- Embedding of `isLockedOut()`: reports the active window and lazily clears an
expired one.  A stored value of 0 is JS-falsy, hence the extra guard. -/
def isLockedOut (now : Nat) (s : AuthState) : Bool × AuthState :=
  match s.lockoutUntil with
  | none => (false, s)
  | some t =>
      if t = 0 then (false, s)
      else if now ≥ t then
        (false, { s with lockoutUntil := none, failedAttempts := 0 })
      else (true, s)

/-- Embedding of `getRemainingLockoutTime()`: `Math.ceil(max(0, lockoutUntil - now)
/ 1000)` seconds; truncated Nat subtraction supplies the `max`. -/
def getRemainingLockoutTime (now : Nat) (s : AuthState) : Nat :=
  match s.lockoutUntil with
  | none => 0
  | some t => if t = 0 then 0 else (t - now + 999) / 1000

/-- Shape of `verifyPassphrase`'s `{ success, error? }` result, with the
numbers interpolated into the error strings carried explicitly. -/
inductive VerifyResult where
  | ok
  | lockedOut (minutes : Nat)
  | notSetUp
  | lockedOutTriggered
  | incorrect (remaining : Nat)
deriving Repr, DecidableEq

/-- Embedding of `verifyPassphrase(passphrase)`: lockout short-circuit, then hash
comparison against the stored salt and hash (JS treats a stored empty
string like a missing value), unlocking on match and counting failures
otherwise.  `Date.now()` is the parameter `now`. -/
def verifyPassphrase (H : String → String) (now : Nat) (passphrase : String)
    (store : SecureStore) (s : AuthState) : VerifyResult × AuthState :=
  let r := isLockedOut now s
  if r.1 then
    (.lockedOut ((getRemainingLockoutTime now r.2 + 59) / 60), r.2)
  else
    match store.passphraseSalt, store.passphraseHash with
    | some salt, some storedHash =>
        if salt = "" ∨ storedHash = "" then (.notSetUp, r.2)
        else if hashPassphrase H passphrase salt = storedHash then
          (.ok, { r.2 with
            isUnlocked := true
            encryptionKey := some (deriveEncryptionKey H passphrase salt)
            lastActivity := now
            failedAttempts := 0
            lockoutUntil := none })
        else if r.2.failedAttempts + 1 ≥ MAX_FAILED_ATTEMPTS then
          (.lockedOutTriggered, { r.2 with
            failedAttempts := r.2.failedAttempts + 1
            lockoutUntil := some (now + LOCKOUT_DURATION_MS) })
        else
          (.incorrect (MAX_FAILED_ATTEMPTS - (r.2.failedAttempts + 1)),
            { r.2 with failedAttempts := r.2.failedAttempts + 1 })
    | _, _ => (.notSetUp, r.2)

/-- Embedding of `setupPassphrase(passphrase)`: the freshly generated salt is passed
in; writes salt, hash and derived key to the secure store and unlocks.
Only the success path is modelled (the catch branch covers secure-store
write failures of the collaborator). -/
def setupPassphrase (H : String → String) (now : Nat) (salt passphrase : String)
    (store : SecureStore) (s : AuthState) : Bool × SecureStore × AuthState :=
  let hash := hashPassphrase H passphrase salt
  let encryptionKey := deriveEncryptionKey H passphrase salt
  (true,
    { store with
      passphraseSalt := some salt
      passphraseHash := some hash
      encryptionKey := some encryptionKey },
    { s with
      isSetup := true
      isUnlocked := true
      encryptionKey := some encryptionKey
      lastActivity := now })

/-- Embedding of `unlockWithBiometric()`: the biometric prompt outcome is the
parameter; on success the sealed key (possibly absent) is loaded from
the secure store. -/
def unlockWithBiometric (now : Nat) (promptSuccess : Bool)
    (store : SecureStore) (s : AuthState) : Bool × AuthState :=
  if !(s.biometricEnabled && s.biometricAvailable) then (false, s)
  else if promptSuccess then
    (true, { s with
      isUnlocked := true
      encryptionKey := store.encryptionKey
      lastActivity := now })
  else (false, s)

/-- Embedding of `enableBiometric(enable)`. -/
def enableBiometric (enable : Bool) (store : SecureStore) (s : AuthState) :
    SecureStore × AuthState :=
  if !s.biometricAvailable && enable then (store, s)
  else
    ({ store with
        biometricEnabledFlag := some (if enable then "true" else "false") },
      { s with biometricEnabled := enable })

/-- Embedding of `lock()`: drop the key and lock. -/
def lock (s : AuthState) : AuthState :=
  { s with isUnlocked := false, encryptionKey := none }

/-- Embedding of `updateActivity()`. -/
def updateActivity (now : Nat) (s : AuthState) : AuthState :=
  { s with lastActivity := now }

/-- Embedding of `checkAutoLock()`.  JS computes `Date.now() - lastActivity`, which is
negative when the clock ran backwards and then fails the comparison;
truncated Nat subtraction yields 0 there and takes the same branch. -/
def checkAutoLock (now : Nat) (s : AuthState) : AuthState :=
  if s.isUnlocked = true ∧ now - s.lastActivity > AUTO_LOCK_MS then lock s
  else s

/-- The store's startup action (its source name is a Lean keyword):
reads the setup flag (`!!hash`, so a stored empty string counts as not
set up) and the biometric capability and flag. -/
def initializeAuth (hasHardware isEnrolled : Bool) (store : SecureStore)
    (s : AuthState) : AuthState :=
  let isSetup : Bool := match store.passphraseHash with
    | some h => !(h == "")
    | none => false
  let biometricAvailable := hasHardware && isEnrolled
  let biometricEnabled :=
    (store.biometricEnabledFlag == some "true") && biometricAvailable
  { s with
    isSetup := isSetup
    biometricAvailable := biometricAvailable
    biometricEnabled := biometricEnabled }

/-- Combined system state: in-memory auth store plus secure store. -/
structure Sys where
  auth : AuthState
  store : SecureStore

/-- One completed operation among the seven the session-key invariant
ranges over, each with its external inputs (digest function, clock,
fresh salt, passphrase, biometric outcome, hardware flags) chosen
arbitrarily. -/
inductive Step : Sys → Sys → Prop where
  | stepInit (hw en : Bool) (σ : Sys) :
      Step σ ⟨initializeAuth hw en σ.store σ.auth, σ.store⟩
  | stepSetup (H : String → String) (now : Nat) (salt p : String) (σ : Sys) :
      Step σ ⟨(setupPassphrase H now salt p σ.store σ.auth).2.2,
        (setupPassphrase H now salt p σ.store σ.auth).2.1⟩
  | stepVerify (H : String → String) (now : Nat) (p : String) (σ : Sys) :
      Step σ ⟨(verifyPassphrase H now p σ.store σ.auth).2, σ.store⟩
  | stepBiometric (now : Nat) (ok : Bool) (σ : Sys) :
      Step σ ⟨(unlockWithBiometric now ok σ.store σ.auth).2, σ.store⟩
  | stepLock (σ : Sys) : Step σ ⟨lock σ.auth, σ.store⟩
  | stepAutoLock (now : Nat) (σ : Sys) :
      Step σ ⟨checkAutoLock now σ.auth, σ.store⟩
  | stepActivity (now : Nat) (σ : Sys) :
      Step σ ⟨updateActivity now σ.auth, σ.store⟩

/-- States reachable from a fresh install (empty secure store, locked
session) through the listed operations. -/
def Reachable (t0 : Nat) (σ : Sys) : Prop :=
  Relation.ReflTransGen Step ⟨initialAuthState t0, emptySecureStore⟩ σ

/-- Invariant strengthened for the induction: the session-key property
itself, plus the facts that keep `unlockWithBiometric` inert (no
`enableBiometric` call occurs among the listed operations, so the flag
is never written). -/
def SessionInv (σ : Sys) : Prop :=
  (σ.auth.isUnlocked = true ↔ σ.auth.encryptionKey ≠ none)
  ∧ σ.auth.biometricEnabled = false
  ∧ σ.store.biometricEnabledFlag = none

/-- Fold of `verifyPassphrase` state transitions over a list of
(time, passphrase) attempts against a fixed secure store. -/
def afterAttempts (H : String → String) (store : SecureStore)
    (attempts : List (Nat × String)) (s : AuthState) : AuthState :=
  attempts.foldl (fun acc a => (verifyPassphrase H a.1 a.2 store acc).2) s

/-! ## Claim theorems about the auth store -/

/-- C9: on an unlocked session, `checkAutoLock` locks (zeroing the key)
exactly when the inactivity gap exceeds `AUTO_LOCK_MS`; 6 minutes of
inactivity locks, 2 minutes does not, and the check is idempotent. -/
theorem checkAutoLock_spec (now : Nat) (s : AuthState)
    (hu : s.isUnlocked = true) :
    (now - s.lastActivity > AUTO_LOCK_MS → checkAutoLock now s = lock s)
    ∧ (now - s.lastActivity ≤ AUTO_LOCK_MS → checkAutoLock now s = s)
    ∧ (now = s.lastActivity + 6 * 60 * 1000 →
        (checkAutoLock now s).isUnlocked = false
        ∧ (checkAutoLock now s).encryptionKey = none)
    ∧ (now = s.lastActivity + 2 * 60 * 1000 →
        (checkAutoLock now s).isUnlocked = true)
    ∧ checkAutoLock now (checkAutoLock now s) = checkAutoLock now s := by
  refine ⟨?_, ?_, ?_, ?_, ?_⟩
  · intro h
    unfold checkAutoLock
    rw [if_pos ⟨hu, h⟩]
  · intro h
    unfold checkAutoLock
    rw [if_neg fun hc => by omega]
  · intro h
    have hgap : now - s.lastActivity > AUTO_LOCK_MS := by
      simp only [AUTO_LOCK_MS]
      omega
    unfold checkAutoLock
    rw [if_pos ⟨hu, hgap⟩]
    exact ⟨rfl, rfl⟩
  · intro h
    have hgap : ¬(now - s.lastActivity > AUTO_LOCK_MS) := by
      simp only [AUTO_LOCK_MS]
      omega
    unfold checkAutoLock
    rw [if_neg fun hc => hgap hc.2]
    exact hu
  · by_cases hc : s.isUnlocked = true ∧ now - s.lastActivity > AUTO_LOCK_MS
    · unfold checkAutoLock
      rw [if_pos hc, if_neg fun hc2 => by simp [lock] at hc2]
    · unfold checkAutoLock
      rw [if_neg hc, if_neg hc]

/-- Witness for C9: 6 minutes of inactivity on an unlocked session
locks it. -/
theorem checkAutoLock_spec_witness :
    checkAutoLock 360000
        { initialAuthState 0 with isUnlocked := true, encryptionKey := some "k" }
      = lock { initialAuthState 0 with
          isUnlocked := true, encryptionKey := some "k" } :=
  (checkAutoLock_spec 360000
    { initialAuthState 0 with isUnlocked := true, encryptionKey := some "k" }
    (by decide)).1 (by decide)

/-- C7 counterexample: `setupPassphrase` accepts a 1-character
passphrase — it returns `true` and writes the credential record, where
the claim says it must reject passphrases shorter than 8 characters. -/
theorem setupPassphrase_length_counterexample :
    String.length "a" < 8
    ∧ (setupPassphrase (fun x => x) 0 "s" "a" emptySecureStore
        (initialAuthState 0)).1 = true
    ∧ (setupPassphrase (fun x => x) 0 "s" "a" emptySecureStore
        (initialAuthState 0)).2.1.passphraseHash = some "as" :=
  ⟨by decide, rfl, rfl⟩

/-- C7 amended: `setupPassphrase` itself performs no length validation:
it succeeds and creates the credential record for every passphrase of
any length (a minimum-length check exists only in the setup screen UI,
and no maximum is enforced anywhere). -/
theorem setupPassphrase_no_length_validation (H : String → String) (now : Nat)
    (salt p : String) (store : SecureStore) (s : AuthState) :
    (setupPassphrase H now salt p store s).1 = true
    ∧ (setupPassphrase H now salt p store s).2.1.passphraseHash
        = some (hashPassphrase H p salt)
    ∧ (setupPassphrase H now salt p store s).2.1.passphraseSalt = some salt
    ∧ (setupPassphrase H now salt p store s).2.2.isSetup = true :=
  ⟨rfl, rfl, rfl, rfl⟩

/-- C8 counterexample: a successful `setupPassphrase` leaves a pending
`failedAttempts`/`lockoutUntil` untouched instead of resetting them. -/
theorem setupPassphrase_reset_counterexample :
    (setupPassphrase (fun x => x) 7 "s" "password1" emptySecureStore
        { initialAuthState 0 with
          failedAttempts := 3, lockoutUntil := some 999 }).2.2.failedAttempts
      = 3
    ∧ (setupPassphrase (fun x => x) 7 "s" "password1" emptySecureStore
        { initialAuthState 0 with
          failedAttempts := 3, lockoutUntil := some 999 }).2.2.lockoutUntil
      = some 999
    ∧ ¬((setupPassphrase (fun x => x) 7 "s" "password1" emptySecureStore
        { initialAuthState 0 with
          failedAttempts := 3, lockoutUntil := some 999 }).2.2.failedAttempts
          = 0
      ∧ (setupPassphrase (fun x => x) 7 "s" "password1" emptySecureStore
        { initialAuthState 0 with
          failedAttempts := 3, lockoutUntil := some 999 }).2.2.lockoutUntil
          = none) :=
  ⟨rfl, rfl, by decide⟩

/-- C8 amended: a successful `setupPassphrase` leaves the session
unlocked with the derived key in memory and refreshes `lastActivity`,
but leaves `failedAttempts` and `lockoutUntil` exactly as they were. -/
theorem setupPassphrase_success_state (H : String → String) (now : Nat)
    (salt p : String) (store : SecureStore) (s : AuthState) :
    (setupPassphrase H now salt p store s).1 = true
    ∧ (setupPassphrase H now salt p store s).2.2.isUnlocked = true
    ∧ (setupPassphrase H now salt p store s).2.2.encryptionKey
        = some (deriveEncryptionKey H p salt)
    ∧ (setupPassphrase H now salt p store s).2.2.lastActivity = now
    ∧ (setupPassphrase H now salt p store s).2.2.failedAttempts
        = s.failedAttempts
    ∧ (setupPassphrase H now salt p store s).2.2.lockoutUntil
        = s.lockoutUntil :=
  ⟨rfl, rfl, rfl, rfl, rfl, rfl⟩

/-- C3: while the lockout window is active (`now < lockoutUntil`),
`verifyPassphrase` returns the locked-out error carrying the remaining
time (in minutes, from the remaining seconds), leaves the state
untouched, and its behaviour is independent of the digest function, the
submitted passphrase and the secure store — the KDF/hash is never
consulted. -/
theorem verify_during_lockout (H H2 : String → String) (now T : Nat)
    (p p2 : String) (store store2 : SecureStore) (s : AuthState)
    (hl : s.lockoutUntil = some T) (hnow : now < T) :
    verifyPassphrase H now p store s
      = (.lockedOut (((T - now + 999) / 1000 + 59) / 60), s)
    ∧ verifyPassphrase H now p store s = verifyPassphrase H2 now p2 store2 s := by
  have hT : T ≠ 0 := by omega
  have hge : ¬ now ≥ T := by omega
  have hlo : isLockedOut now s = (true, s) := by
    unfold isLockedOut
    rw [hl]
    simp [hT, hge]
  have hrem : getRemainingLockoutTime now s = (T - now + 999) / 1000 := by
    unfold getRemainingLockoutTime
    rw [hl]
    simp [hT]
  constructor
  · simp [verifyPassphrase, hlo, hrem]
  · simp [verifyPassphrase, hlo, hrem]

/-- Witness for C3: with 60 seconds of lockout left, the result is a
1-minute locked-out rejection and the state is unchanged. -/
theorem verify_during_lockout_witness :
    verifyPassphrase (fun x => x) 40 "pw" emptySecureStore
        { initialAuthState 0 with failedAttempts := 5, lockoutUntil := some 100 }
      = (.lockedOut (((100 - 40 + 999) / 1000 + 59) / 60),
          { initialAuthState 0 with
            failedAttempts := 5, lockoutUntil := some 100 })
    ∧ verifyPassphrase (fun x => x) 40 "pw" emptySecureStore
        { initialAuthState 0 with failedAttempts := 5, lockoutUntil := some 100 }
      = verifyPassphrase (fun x => "other") 40 "guess"
          { emptySecureStore with passphraseHash := some "h" }
          { initialAuthState 0 with
            failedAttempts := 5, lockoutUntil := some 100 } :=
  verify_during_lockout (fun x => x) (fun x => "other") 40 100 "pw" "guess"
    emptySecureStore { emptySecureStore with passphraseHash := some "h" }
    { initialAuthState 0 with failedAttempts := 5, lockoutUntil := some 100 }
    rfl (by decide)

/-- Helper fact: `isLockedOut` never touches the unlock flag, the key or the
biometric flag. -/
theorem isLockedOut_post (now : Nat) (s : AuthState) :
    (isLockedOut now s).2.isUnlocked = s.isUnlocked
    ∧ (isLockedOut now s).2.encryptionKey = s.encryptionKey
    ∧ (isLockedOut now s).2.biometricEnabled = s.biometricEnabled := by
  unfold isLockedOut
  cases hl : s.lockoutUntil with
  | none => exact ⟨rfl, rfl, rfl⟩
  | some t =>
      by_cases ht : t = 0
      · simp [ht]
      · by_cases hge : now ≥ t
        · simp [ht, hge]
        · simp [ht, hge]

/-- Helper fact: `verifyPassphrase` either leaves the unlock flag and key as they
were, or unlocks with some key in memory; it never touches the
biometric flag. -/
theorem verifyPassphrase_post (H : String → String) (now : Nat) (p : String)
    (store : SecureStore) (s : AuthState) :
    ((verifyPassphrase H now p store s).2.isUnlocked = s.isUnlocked
      ∧ (verifyPassphrase H now p store s).2.encryptionKey = s.encryptionKey
    ∨ (verifyPassphrase H now p store s).2.isUnlocked = true
      ∧ ∃ k, (verifyPassphrase H now p store s).2.encryptionKey = some k)
    ∧ (verifyPassphrase H now p store s).2.biometricEnabled
        = s.biometricEnabled := by
  obtain ⟨h1, h2, h3⟩ := isLockedOut_post now s
  simp only [verifyPassphrase]
  repeat' split
  all_goals first
    | exact ⟨Or.inl ⟨h1, h2⟩, h3⟩
    | exact ⟨Or.inr ⟨rfl, _, rfl⟩, by simpa using h3⟩
    | exact ⟨Or.inl ⟨by simpa using h1, by simpa using h2⟩, by simpa using h3⟩

/-- Every listed operation preserves the strengthened invariant. -/
theorem step_preserves_inv (σ σ2 : Sys) (hst : Step σ σ2)
    (hinv : SessionInv σ) : SessionInv σ2 := by
  obtain ⟨hiff, hbe, hflag⟩ := hinv
  cases hst with
  | stepInit hw en σ =>
      refine ⟨by simpa [initializeAuth] using hiff, ?_, hflag⟩
      simp [initializeAuth, hflag]
  | stepSetup H now salt p σ =>
      refine ⟨by simp [setupPassphrase], by simpa [setupPassphrase] using hbe,
        by simpa [setupPassphrase] using hflag⟩
  | stepVerify H now p σ =>
      obtain ⟨hpost, hbe2⟩ := verifyPassphrase_post H now p σ.store σ.auth
      refine ⟨?_, by rw [hbe2]; exact hbe, hflag⟩
      rcases hpost with ⟨hu, hk⟩ | ⟨hu, k, hk⟩
      · rw [hu, hk]
        exact hiff
      · rw [hu, hk]
        simp
  | stepBiometric now ok σ =>
      have hno : (unlockWithBiometric now ok σ.store σ.auth).2 = σ.auth := by
        unfold unlockWithBiometric
        rw [if_pos]
        rw [hbe]
        rfl
      rw [hno]
      exact ⟨hiff, hbe, hflag⟩
  | stepLock σ =>
      refine ⟨by simp [lock], by simpa [lock] using hbe, hflag⟩
  | stepAutoLock now σ =>
      unfold checkAutoLock
      split
      · refine ⟨by simp [lock], by simpa [lock] using hbe, hflag⟩
      · exact ⟨hiff, hbe, hflag⟩
  | stepActivity now σ =>
      exact ⟨by simpa [updateActivity] using hiff,
        by simpa [updateActivity] using hbe, hflag⟩

/-- The strengthened invariant holds in every reachable state. -/
theorem reachable_inv (t0 : Nat) (σ : Sys) (h : Reachable t0 σ) :
    SessionInv σ := by
  have h2 : Relation.ReflTransGen Step
      ⟨initialAuthState t0, emptySecureStore⟩ σ := h
  clear h
  induction h2 with
  | refl => exact ⟨by simp [initialAuthState], rfl, rfl⟩
  | tail hab hbc ih => exact step_preserves_inv _ _ hbc ih

/-- C2: in every state reachable through the listed operations from a
fresh install, the session is unlocked exactly when a derived key is
held in memory. -/
theorem unlocked_iff_encryptionKey (t0 : Nat) (σ : Sys) (h : Reachable t0 σ) :
    σ.auth.isUnlocked = true ↔ σ.auth.encryptionKey ≠ none :=
  (reachable_inv t0 σ h).1

/-- Witness for C2: the state reached by one successful
`setupPassphrase` from a fresh install satisfies the invariant. -/
theorem unlocked_iff_encryptionKey_witness :
    ((⟨(setupPassphrase (fun x => x) 5 "s" "pw" emptySecureStore
          (initialAuthState 0)).2.2,
        (setupPassphrase (fun x => x) 5 "s" "pw" emptySecureStore
          (initialAuthState 0)).2.1⟩ : Sys).auth.isUnlocked = true
      ↔ (⟨(setupPassphrase (fun x => x) 5 "s" "pw" emptySecureStore
          (initialAuthState 0)).2.2,
        (setupPassphrase (fun x => x) 5 "s" "pw" emptySecureStore
          (initialAuthState 0)).2.1⟩ : Sys).auth.encryptionKey ≠ none) :=
  unlocked_iff_encryptionKey 0 _
    (Relation.ReflTransGen.tail Relation.ReflTransGen.refl
      (Step.stepSetup (fun x => x) 5 "s" "pw"
        ⟨initialAuthState 0, emptySecureStore⟩))

/-- A wrong attempt outside any lockout window increments the counter
and, at the threshold, opens the lockout window. -/
theorem verifyPassphrase_wrong (H : String → String) (now : Nat) (p : String)
    (store : SecureStore) (s : AuthState) (salt storedHash : String)
    (hsalt : store.passphraseSalt = some salt) (hsne : salt ≠ "")
    (hhash : store.passphraseHash = some storedHash) (hhne : storedHash ≠ "")
    (hw : hashPassphrase H p salt ≠ storedHash)
    (hl : s.lockoutUntil = none) :
    (verifyPassphrase H now p store s).2 =
      if s.failedAttempts + 1 ≥ MAX_FAILED_ATTEMPTS then
        { s with failedAttempts := s.failedAttempts + 1
                 lockoutUntil := some (now + LOCKOUT_DURATION_MS) }
      else { s with failedAttempts := s.failedAttempts + 1 } := by
  have hlo : isLockedOut now s = (false, s) := by
    unfold isLockedOut
    rw [hl]
  simp only [verifyPassphrase, hlo]
  simp [hsalt, hhash, hsne, hhne, hw]
  split <;> rfl

/-- C1: from a clean counter, five consecutive wrong attempts (at any
times) put the store into a lockout window ending
`LOCKOUT_DURATION_MS` after the fifth attempt; while that window is
active even the correct passphrase is rejected as locked out with the
state unchanged, and at any time from the window end on, the correct
passphrase verifies successfully and `failedAttempts` is 0 again. -/
theorem lockout_after_five_wrong (H : String → String) (store : SecureStore)
    (salt storedHash correct p1 p2 p3 p4 p5 : String)
    (t1 t2 t3 t4 t5 u v : Nat) (s0 : AuthState)
    (hsalt : store.passphraseSalt = some salt) (hsne : salt ≠ "")
    (hhash : store.passphraseHash = some storedHash) (hhne : storedHash ≠ "")
    (hok : hashPassphrase H correct salt = storedHash)
    (hw1 : hashPassphrase H p1 salt ≠ storedHash)
    (hw2 : hashPassphrase H p2 salt ≠ storedHash)
    (hw3 : hashPassphrase H p3 salt ≠ storedHash)
    (hw4 : hashPassphrase H p4 salt ≠ storedHash)
    (hw5 : hashPassphrase H p5 salt ≠ storedHash)
    (h0f : s0.failedAttempts = 0) (h0l : s0.lockoutUntil = none)
    (hu : u < t5 + LOCKOUT_DURATION_MS)
    (hv : t5 + LOCKOUT_DURATION_MS ≤ v) :
    (verifyPassphrase H u correct store (afterAttempts H store
        [(t1, p1), (t2, p2), (t3, p3), (t4, p4), (t5, p5)] s0)).1
      = .lockedOut (((t5 + LOCKOUT_DURATION_MS - u + 999) / 1000 + 59) / 60)
    ∧ (verifyPassphrase H u correct store (afterAttempts H store
        [(t1, p1), (t2, p2), (t3, p3), (t4, p4), (t5, p5)] s0)).2
      = afterAttempts H store
          [(t1, p1), (t2, p2), (t3, p3), (t4, p4), (t5, p5)] s0
    ∧ (verifyPassphrase H v correct store (afterAttempts H store
        [(t1, p1), (t2, p2), (t3, p3), (t4, p4), (t5, p5)] s0)).1 = .ok
    ∧ (verifyPassphrase H v correct store (afterAttempts H store
        [(t1, p1), (t2, p2), (t3, p3), (t4, p4), (t5, p5)] s0)).2.failedAttempts
      = 0 := by
  obtain ⟨a1, a2, a3, a4, a5, a6, a7, a8⟩ := s0
  have h0f2 : a7 = 0 := h0f
  have h0l2 : a8 = none := h0l
  subst h0f2
  subst h0l2
  have e1 : (verifyPassphrase H t1 p1 store ⟨a1, a2, a3, a4, a5, a6, 0, none⟩).2
      = ⟨a1, a2, a3, a4, a5, a6, 1, none⟩ := by
    rw [verifyPassphrase_wrong H t1 p1 store _ salt storedHash hsalt hsne hhash
      hhne hw1 rfl]
    norm_num [MAX_FAILED_ATTEMPTS]
  have e2 : (verifyPassphrase H t2 p2 store ⟨a1, a2, a3, a4, a5, a6, 1, none⟩).2
      = ⟨a1, a2, a3, a4, a5, a6, 2, none⟩ := by
    rw [verifyPassphrase_wrong H t2 p2 store _ salt storedHash hsalt hsne hhash
      hhne hw2 rfl]
    norm_num [MAX_FAILED_ATTEMPTS]
  have e3 : (verifyPassphrase H t3 p3 store ⟨a1, a2, a3, a4, a5, a6, 2, none⟩).2
      = ⟨a1, a2, a3, a4, a5, a6, 3, none⟩ := by
    rw [verifyPassphrase_wrong H t3 p3 store _ salt storedHash hsalt hsne hhash
      hhne hw3 rfl]
    norm_num [MAX_FAILED_ATTEMPTS]
  have e4 : (verifyPassphrase H t4 p4 store ⟨a1, a2, a3, a4, a5, a6, 3, none⟩).2
      = ⟨a1, a2, a3, a4, a5, a6, 4, none⟩ := by
    rw [verifyPassphrase_wrong H t4 p4 store _ salt storedHash hsalt hsne hhash
      hhne hw4 rfl]
    norm_num [MAX_FAILED_ATTEMPTS]
  have e5 : (verifyPassphrase H t5 p5 store ⟨a1, a2, a3, a4, a5, a6, 4, none⟩).2
      = ⟨a1, a2, a3, a4, a5, a6, 5, some (t5 + LOCKOUT_DURATION_MS)⟩ := by
    rw [verifyPassphrase_wrong H t5 p5 store _ salt storedHash hsalt hsne hhash
      hhne hw5 rfl]
    norm_num [MAX_FAILED_ATTEMPTS]
  have hs5 : afterAttempts H store
      [(t1, p1), (t2, p2), (t3, p3), (t4, p4), (t5, p5)]
      ⟨a1, a2, a3, a4, a5, a6, 0, none⟩
      = ⟨a1, a2, a3, a4, a5, a6, 5, some (t5 + LOCKOUT_DURATION_MS)⟩ := by
    simp only [afterAttempts, List.foldl_cons, List.foldl_nil]
    rw [e1, e2, e3, e4, e5]
  rw [hs5]
  have hT0 : ¬ t5 + LOCKOUT_DURATION_MS = 0 := by
    simp only [LOCKOUT_DURATION_MS]
    omega
  have hlou : isLockedOut u
      ⟨a1, a2, a3, a4, a5, a6, 5, some (t5 + LOCKOUT_DURATION_MS)⟩
      = (true, ⟨a1, a2, a3, a4, a5, a6, 5, some (t5 + LOCKOUT_DURATION_MS)⟩) := by
    unfold isLockedOut
    simp [hT0, show ¬ u ≥ t5 + LOCKOUT_DURATION_MS from by omega]
  have hlov : isLockedOut v
      ⟨a1, a2, a3, a4, a5, a6, 5, some (t5 + LOCKOUT_DURATION_MS)⟩
      = (false, ⟨a1, a2, a3, a4, a5, a6, 0, none⟩) := by
    unfold isLockedOut
    simp [hT0, show v ≥ t5 + LOCKOUT_DURATION_MS from hv]
  refine ⟨?_, ?_, ?_, ?_⟩
  · simp [verifyPassphrase, hlou, getRemainingLockoutTime, hT0]
  · simp [verifyPassphrase, hlou]
  · simp [verifyPassphrase, hlov, hsalt, hhash, hsne, hhne, hok]
  · simp [verifyPassphrase, hlov, hsalt, hhash, hsne, hhne, hok]

/-- Witness for C1 with a concrete digest function, store and attempt
trace: the sixth attempt with the correct passphrase at time 1 is
locked out for 5 minutes, and at time 300000 it succeeds. -/
theorem lockout_after_five_wrong_witness :
    (verifyPassphrase (fun x => x) 1 "c"
        { emptySecureStore with
          passphraseSalt := some "s", passphraseHash := some "cs" }
        (afterAttempts (fun x => x)
          { emptySecureStore with
            passphraseSalt := some "s", passphraseHash := some "cs" }
          [(0, "w"), (0, "w"), (0, "w"), (0, "w"), (0, "w")]
          (initialAuthState 0))).1
      = .lockedOut (((0 + LOCKOUT_DURATION_MS - 1 + 999) / 1000 + 59) / 60)
    ∧ (verifyPassphrase (fun x => x) 1 "c"
        { emptySecureStore with
          passphraseSalt := some "s", passphraseHash := some "cs" }
        (afterAttempts (fun x => x)
          { emptySecureStore with
            passphraseSalt := some "s", passphraseHash := some "cs" }
          [(0, "w"), (0, "w"), (0, "w"), (0, "w"), (0, "w")]
          (initialAuthState 0))).2
      = afterAttempts (fun x => x)
          { emptySecureStore with
            passphraseSalt := some "s", passphraseHash := some "cs" }
          [(0, "w"), (0, "w"), (0, "w"), (0, "w"), (0, "w")]
          (initialAuthState 0)
    ∧ (verifyPassphrase (fun x => x) 300000 "c"
        { emptySecureStore with
          passphraseSalt := some "s", passphraseHash := some "cs" }
        (afterAttempts (fun x => x)
          { emptySecureStore with
            passphraseSalt := some "s", passphraseHash := some "cs" }
          [(0, "w"), (0, "w"), (0, "w"), (0, "w"), (0, "w")]
          (initialAuthState 0))).1 = .ok
    ∧ (verifyPassphrase (fun x => x) 300000 "c"
        { emptySecureStore with
          passphraseSalt := some "s", passphraseHash := some "cs" }
        (afterAttempts (fun x => x)
          { emptySecureStore with
            passphraseSalt := some "s", passphraseHash := some "cs" }
          [(0, "w"), (0, "w"), (0, "w"), (0, "w"), (0, "w")]
          (initialAuthState 0))).2.failedAttempts = 0 :=
  lockout_after_five_wrong (fun x => x)
    { emptySecureStore with
      passphraseSalt := some "s", passphraseHash := some "cs" }
    "s" "cs" "c" "w" "w" "w" "w" "w" 0 0 0 0 0 1 300000 (initialAuthState 0)
    rfl (by decide) rfl (by decide) rfl (by decide) (by decide) (by decide)
    (by decide) (by decide) rfl rfl (by decide) (by decide)

end OpenClaw
